import Mathlib

/-!
Shallow embedding of the generated documentation search index in
`src/searchindex.js` (`Search.setIndex({docnames: ..., terms: ..., ...})`).
The file is a single JavaScript object literal; each field of that literal
is embedded below as a Lean definition carrying the same data, and the
read-only lookup operation implied by the specification is modelled
explicitly.
-/

namespace Ropy

/-- A value of the `terms` (and `titleterms`) mapping in `searchindex.js`:
a posting is either a bare integer document identifier (e.g. `"class":0`)
or a JavaScript array of document identifiers (e.g. `"4x4":[1,2]`). -/
inductive Posting where
  | int (i : Nat)
  | list (is : List Nat)
deriving DecidableEq, Repr

/-- One value of the inner `objects` mappings in `searchindex.js`: a
4-tuple `[docId, objtypeKey, priority, anchor]`. -/
structure ObjEntry where
  doc : Nat
  kind : Nat
  prio : Nat
  anchor : String
deriving DecidableEq, Repr

def docnames : List String :=
  ["index", "intro", "roboticstoolbox"]

def envversion : List (String × Nat) :=
  [("sphinx.domains.c", 2),
   ("sphinx.domains.changeset", 1),
   ("sphinx.domains.citation", 1),
   ("sphinx.domains.cpp", 3),
   ("sphinx.domains.index", 1),
   ("sphinx.domains.javascript", 2),
   ("sphinx.domains.math", 2),
   ("sphinx.domains.python", 2),
   ("sphinx.domains.rst", 2),
   ("sphinx.domains.std", 1),
   ("sphinx.ext.todo", 2),
   ("sphinx.ext.viewcode", 1),
   ("sphinx", 56)]

def filenames : List String :=
  ["index.rst", "intro.rst", "roboticstoolbox.rst"]

def objects : List (String × List (String × ObjEntry)) :=
  [("ropy.robot",
    [("Link", ⟨2, 0, 0, "-"⟩),
     ("Prismatic", ⟨2, 0, 0, "-"⟩),
     ("Revolute", ⟨2, 0, 0, "-"⟩),
     ("SerialLink", ⟨2, 0, 0, "-"⟩)]),
   ("ropy.robot.Link",
    [("Link", ⟨2, 1, 1, ""⟩)]),
   ("ropy.robot.Link.Link",
    [("A", ⟨2, 2, 1, ""⟩),
     ("B", ⟨2, 2, 1, ""⟩),
     ("G", ⟨2, 2, 1, ""⟩),
     ("I", ⟨2, 2, 1, ""⟩),
     ("Jm", ⟨2, 2, 1, ""⟩),
     ("Tc", ⟨2, 2, 1, ""⟩),
     ("a", ⟨2, 2, 1, ""⟩),
     ("alpha", ⟨2, 2, 1, ""⟩),
     ("d", ⟨2, 2, 1, ""⟩),
     ("dyn", ⟨2, 2, 1, ""⟩),
     ("flip", ⟨2, 2, 1, ""⟩),
     ("friction", ⟨2, 2, 1, ""⟩),
     ("islimit", ⟨2, 2, 1, ""⟩),
     ("isprismatic", ⟨2, 2, 1, ""⟩),
     ("isrevolute", ⟨2, 2, 1, ""⟩),
     ("m", ⟨2, 2, 1, ""⟩),
     ("mdh", ⟨2, 2, 1, ""⟩),
     ("nofriction", ⟨2, 2, 1, ""⟩),
     ("offset", ⟨2, 2, 1, ""⟩),
     ("qlim", ⟨2, 2, 1, ""⟩),
     ("r", ⟨2, 2, 1, ""⟩),
     ("sigma", ⟨2, 2, 1, ""⟩),
     ("theta", ⟨2, 2, 1, ""⟩)]),
   ("ropy.robot.Prismatic",
    [("Prismatic", ⟨2, 1, 1, ""⟩)]),
   ("ropy.robot.Prismatic.Prismatic",
    [("A", ⟨2, 2, 1, ""⟩),
     ("B", ⟨2, 2, 1, ""⟩),
     ("G", ⟨2, 2, 1, ""⟩),
     ("I", ⟨2, 2, 1, ""⟩),
     ("Jm", ⟨2, 2, 1, ""⟩),
     ("Tc", ⟨2, 2, 1, ""⟩),
     ("a", ⟨2, 2, 1, ""⟩),
     ("alpha", ⟨2, 2, 1, ""⟩),
     ("d", ⟨2, 2, 1, ""⟩),
     ("dyn", ⟨2, 2, 1, ""⟩),
     ("flip", ⟨2, 2, 1, ""⟩),
     ("friction", ⟨2, 2, 1, ""⟩),
     ("islimit", ⟨2, 2, 1, ""⟩),
     ("isprismatic", ⟨2, 2, 1, ""⟩),
     ("isrevolute", ⟨2, 2, 1, ""⟩),
     ("m", ⟨2, 2, 1, ""⟩),
     ("mdh", ⟨2, 2, 1, ""⟩),
     ("nofriction", ⟨2, 2, 1, ""⟩),
     ("offset", ⟨2, 2, 1, ""⟩),
     ("qlim", ⟨2, 2, 1, ""⟩),
     ("r", ⟨2, 2, 1, ""⟩),
     ("sigma", ⟨2, 2, 1, ""⟩),
     ("theta", ⟨2, 2, 1, ""⟩)]),
   ("ropy.robot.Revolute",
    [("Revolute", ⟨2, 1, 1, ""⟩)]),
   ("ropy.robot.Revolute.Revolute",
    [("A", ⟨2, 2, 1, ""⟩),
     ("B", ⟨2, 2, 1, ""⟩),
     ("G", ⟨2, 2, 1, ""⟩),
     ("I", ⟨2, 2, 1, ""⟩),
     ("Jm", ⟨2, 2, 1, ""⟩),
     ("Tc", ⟨2, 2, 1, ""⟩),
     ("a", ⟨2, 2, 1, ""⟩),
     ("alpha", ⟨2, 2, 1, ""⟩),
     ("d", ⟨2, 2, 1, ""⟩),
     ("dyn", ⟨2, 2, 1, ""⟩),
     ("flip", ⟨2, 2, 1, ""⟩),
     ("friction", ⟨2, 2, 1, ""⟩),
     ("islimit", ⟨2, 2, 1, ""⟩),
     ("isprismatic", ⟨2, 2, 1, ""⟩),
     ("isrevolute", ⟨2, 2, 1, ""⟩),
     ("m", ⟨2, 2, 1, ""⟩),
     ("mdh", ⟨2, 2, 1, ""⟩),
     ("nofriction", ⟨2, 2, 1, ""⟩),
     ("offset", ⟨2, 2, 1, ""⟩),
     ("qlim", ⟨2, 2, 1, ""⟩),
     ("r", ⟨2, 2, 1, ""⟩),
     ("sigma", ⟨2, 2, 1, ""⟩),
     ("theta", ⟨2, 2, 1, ""⟩)]),
   ("ropy.robot.SerialLink",
    [("SerialLink", ⟨2, 1, 1, ""⟩)]),
   ("ropy.robot.SerialLink.SerialLink",
    [("A", ⟨2, 2, 1, ""⟩),
     ("a", ⟨2, 2, 1, ""⟩),
     ("accel", ⟨2, 2, 1, ""⟩),
     ("allfkine", ⟨2, 2, 1, ""⟩),
     ("base", ⟨2, 2, 1, ""⟩),
     ("cinertia", ⟨2, 2, 1, ""⟩),
     ("coriolis", ⟨2, 2, 1, ""⟩),
     ("d", ⟨2, 2, 1, ""⟩),
     ("delete_rne", ⟨2, 2, 1, ""⟩),
     ("fkine", ⟨2, 2, 1, ""⟩),
     ("friction", ⟨2, 2, 1, ""⟩),
     ("gravity", ⟨2, 2, 1, ""⟩),
     ("gravjac", ⟨2, 2, 1, ""⟩),
     ("gravload", ⟨2, 2, 1, ""⟩),
     ("ikcon", ⟨2, 2, 1, ""⟩),
     ("ikine3", ⟨2, 2, 1, ""⟩),
     ("ikine6s", ⟨2, 2, 1, ""⟩),
     ("ikine", ⟨2, 2, 1, ""⟩),
     ("ikinem", ⟨2, 2, 1, ""⟩),
     ("ikunc", ⟨2, 2, 1, ""⟩),
     ("inertia", ⟨2, 2, 1, ""⟩),
     ("islimit", ⟨2, 2, 1, ""⟩),
     ("isprismatic", ⟨2, 2, 1, ""⟩),
     ("isrevolute", ⟨2, 2, 1, ""⟩),
     ("isspherical", ⟨2, 2, 1, ""⟩),
     ("itorque", ⟨2, 2, 1, ""⟩),
     ("jacob0", ⟨2, 2, 1, ""⟩),
     ("jacob0v", ⟨2, 2, 1, ""⟩),
     ("jacobe", ⟨2, 2, 1, ""⟩),
     ("jacobev", ⟨2, 2, 1, ""⟩),
     ("jointdynamics", ⟨2, 2, 1, ""⟩),
     ("links", ⟨2, 2, 1, ""⟩),
     ("manuf", ⟨2, 2, 1, ""⟩),
     ("mdh", ⟨2, 2, 1, ""⟩),
     ("n", ⟨2, 2, 1, ""⟩),
     ("name", ⟨2, 2, 1, ""⟩),
     ("nofriction", ⟨2, 2, 1, ""⟩),
     ("offset", ⟨2, 2, 1, ""⟩),
     ("pay", ⟨2, 2, 1, ""⟩),
     ("payload", ⟨2, 2, 1, ""⟩),
     ("q", ⟨2, 2, 1, ""⟩),
     ("qlim", ⟨2, 2, 1, ""⟩),
     ("r", ⟨2, 2, 1, ""⟩),
     ("rne", ⟨2, 2, 1, ""⟩),
     ("theta", ⟨2, 2, 1, ""⟩),
     ("todegrees", ⟨2, 2, 1, ""⟩),
     ("tool", ⟨2, 2, 1, ""⟩),
     ("toradians", ⟨2, 2, 1, ""⟩),
     ("twists", ⟨2, 2, 1, ""⟩)])]

def objnames : List (Nat × (String × String × String)) :=
  [(0, ("py", "module", "Python module")),
   (1, ("py", "class", "Python class")),
   (2, ("py", "method", "Python method"))]

def objtypes : List (Nat × String) :=
  [(0, "py:module"), (1, "py:class"), (2, "py:method")]

def terms : List (String × Posting) :=
  [("1x1", Posting.int 2),
   ("1x2", Posting.int 2),
   ("1x6", Posting.int 2),
   ("1xm", Posting.int 2),
   ("1xn", Posting.int 2),
   ("2x1", Posting.int 2),
   ("3x3", Posting.int 1),
   ("3xm", Posting.int 2),
   ("3xn", Posting.int 1),
   ("4x4", Posting.list [1, 2]),
   ("4x4xm", Posting.int 2),
   ("6xn", Posting.int 2),
   ("6xnxm", Posting.int 2),
   ("abstract", Posting.int 1),
   ("boolean", Posting.int 2),
   ("case", Posting.list [1, 2]),
   ("class", Posting.int 0),
   ("default", Posting.list [1, 2]),
   ("final", Posting.int 2),
   ("float", Posting.list [1, 2]),
   ("function", Posting.list [0, 1]),
   ("import", Posting.int 1),
   ("int", Posting.list [1, 2]),
   ("new", Posting.int 1),
   ("null", Posting.int 2),
   ("return", Posting.list [1, 2]),
   ("super", Posting.int 1),
   ("true", Posting.list [1, 2]),
   ("For", Posting.list [1, 2]),
   ("Not", Posting.int 2),
   ("Such", Posting.int 2),
   ("The", Posting.list [1, 2]),
   ("There", Posting.int 1),
   ("These", Posting.int 1),
   ("Useful", Posting.list [1, 2]),
   ("Uses", Posting.int 2),
   ("Using", Posting.int 1),
   ("__add__", Posting.int 1),
   ("__iadd__", Posting.int 1),
   ("__imul__", Posting.int 1),
   ("__ipow__", Posting.int 1),
   ("__isub__", Posting.int 1),
   ("__itruediv__", Posting.int 1),
   ("__mul__", Posting.int 1),
   ("__pow__", Posting.int 1),
   ("__radd__", Posting.int 1),
   ("__rmul__", Posting.int 1),
   ("__rsub__", Posting.int 1),
   ("__sub__", Posting.int 1),
   ("__truediv__", Posting.int 1),
   ("abil", Posting.int 1),
   ("about", Posting.list [1, 2]),
   ("abov", Posting.list [1, 2]),
   ("absolut", Posting.int 2),
   ("accel", Posting.int 2),
   ("acceler", Posting.int 2),
   ("accept", Posting.int 1),
   ("achiev", Posting.int 2),
   ("act", Posting.list [1, 2]),
   ("actuat", Posting.int 2),
   ("add", Posting.list [1, 2]),
   ("added", Posting.list [1, 2]),
   ("addit", Posting.int 1),
   ("adjust", Posting.list [1, 2]),
   ("adopt", Posting.int 1),
   ("again", Posting.int 1),
   ("all", Posting.list [1, 2]),
   ("allfkin", Posting.int 2),
   ("allow", Posting.list [1, 2]),
   ("along", Posting.int 2),
   ("alpha", Posting.int 2),
   ("also", Posting.list [1, 2]),
   ("alwai", Posting.list [1, 2]),
   ("analyt", Posting.int 2),
   ("angl", Posting.int 2),
   ("ani", Posting.list [1, 2]),
   ("anoth", Posting.int 1),
   ("append", Posting.int 1),
   ("appli", Posting.list [1, 2]),
   ("applic", Posting.list [1, 2]),
   ("approach", Posting.list [1, 2]),
   ("appropri", Posting.list [1, 2]),
   ("arang", Posting.int 1),
   ("arbitrari", Posting.int 2),
   ("arbitrarili", Posting.int 2),
   ("argument", Posting.int 1),
   ("arithmet", Posting.int 1),
   ("arm", Posting.int 2),
   ("armatur", Posting.int 2),
   ("arrai", Posting.list [1, 2]),
   ("array_lik", Posting.int 1),
   ("arrow", Posting.int 1),
   ("asm", Posting.int 2),
   ("aspect", Posting.int 1),
   ("assign", Posting.list [1, 2]),
   ("associ", Posting.int 1),
   ("assum", Posting.int 2),
   ("attempt", Posting.int 2),
   ("author", Posting.int 2),
   ("autosc", Posting.int 1),
   ("avail", Posting.int 1),
   ("axes", Posting.list [1, 2]),
   ("axi", Posting.list [1, 2]),
   ("back", Posting.int 1),
   ("backend", Posting.int 1),
   ("balanc", Posting.int 1),
   ("base", Posting.list [1, 2]),
   ("becaus", Posting.int 1),
   ("becom", Posting.int 2),
   ("been", Posting.int 2),
   ("befor", Posting.int 2),
   ("being", Posting.list [1, 2]),
   ("belong", Posting.int 1),
   ("between", Posting.int 2),
   ("binari", Posting.int 1),
   ("bodi", Posting.int 2),
   ("bold", Posting.int 1),
   ("bool", Posting.int 2),
   ("both", Posting.int 1),
   ("brute", Posting.int 2),
   ("bundl", Posting.int 1),
   ("calcul", Posting.int 2),
   ("call", Posting.int 1),
   ("can", Posting.list [1, 2]),
   ("cartesian", Posting.int 2),
   ("centr", Posting.int 2),
   ("centripet", Posting.int 2),
   ("chain", Posting.int 2),
   ("chap", Posting.int 2),
   ("check", Posting.int 2),
   ("choic", Posting.int 2),
   ("chosen", Posting.int 2),
   ("cinertia", Posting.int 2),
   ("clear", Posting.int 1),
   ("code", Posting.int 2),
   ("col", Posting.int 2),
   ("color", Posting.int 1),
   ("column", Posting.list [1, 2]),
   ("com", Posting.int 2),
   ("combin", Posting.int 1),
   ("common", Posting.list [1, 2]),
   ("compar", Posting.int 2),
   ("complet", Posting.int 2),
   ("composit", Posting.int 1),
   ("comprehens", Posting.int 1),
   ("comput", Posting.int 2),
   ("computation", Posting.int 2),
   ("concret", Posting.int 2),
   ("condit", Posting.int 2),
   ("configur", Posting.int 2),
   ("congruent", Posting.int 2),
   ("conjunct", Posting.int 2),
   ("consecut", Posting.list [1, 2]),
   ("consid", Posting.int 2),
   ("consider", Posting.list [1, 2]),
   ("constant", Posting.list [1, 2]),
   ("constraint", Posting.int 1),
   ("construct", Posting.int 1),
   ("contai", Posting.int 1),
   ("contain", Posting.list [1, 2]),
   ("continu", Posting.int 2),
   ("contraint", Posting.int 2),
   ("contribut", Posting.int 2),
   ("control", Posting.int 2),
   ("conveni", Posting.int 1),
   ("convert", Posting.list [1, 2]),
   ("coordin", Posting.list [1, 2]),
   ("copi", Posting.list [1, 2]),
   ("corioli", Posting.int 2),
   ("cork", Posting.int 2),
   ("correspond", Posting.int 2),
   ("cos", Posting.int 1),
   ("could", Posting.int 1),
   ("coulomb", Posting.int 2),
   ("coupl", Posting.int 2),
   ("creat", Posting.int 1),
   ("current", Posting.int 2),
   ("deal", Posting.int 1),
   ("defin", Posting.int 2),
   ("deg", Posting.list [1, 2]),
   ("degre", Posting.list [1, 2]),
   ("del", Posting.int 1),
   ("delete_rn", Posting.int 2),
   ("denavit", Posting.int 2),
   ("depend", Posting.list [1, 2]),
   ("deriv", Posting.list [1, 2]),
   ("describ", Posting.list [1, 2]),
   ("desir", Posting.int 2),
   ("determin", Posting.int 2),
   ("develop", Posting.int 2),
   ("diagon", Posting.int 2),
   ("dict", Posting.int 1),
   ("differ", Posting.int 1),
   ("difficult", Posting.int 2),
   ("dim", Posting.int 1),
   ("dimens", Posting.list [1, 2]),
   ("dimension", Posting.int 1),
   ("direct", Posting.int 2),
   ("disabl", Posting.int 2),
   ("displai", Posting.int 1),
   ("distanc", Posting.int 2),
   ("disturb", Posting.int 2),
   ("document", Posting.int 1),
   ("doe", Posting.list [1, 2]),
   ("dof", Posting.int 2),
   ("done", Posting.int 1),
   ("down", Posting.int 2),
   ("downsid", Posting.int 1),
   ("drawn", Posting.int 1),
   ("due", Posting.int 2),
   ("dunder", Posting.int 1),
   ("dyn", Posting.int 2),
   ("dynam", Posting.int 2),
   ("each", Posting.list [1, 2]),
   ("effect", Posting.int 2),
   ("effector", Posting.int 2),
   ("effici", Posting.int 2),
   ("either", Posting.list [1, 2]),
   ("elbow", Posting.int 2),
   ("elbow_up", Posting.int 2),
   ("element", Posting.list [1, 2]),
   ("elementwis", Posting.int 1),
   ("elimin", Posting.int 2),
   ("elment", Posting.int 1),
   ("els", Posting.int 2),
   ("enabl", Posting.int 1),
   ("encount", Posting.int 2),
   ("end", Posting.int 2),
   ("enforc", Posting.list [1, 2]),
   ("ensur", Posting.int 1),
   ("entir", Posting.list [1, 2]),
   ("enumer", Posting.int 1),
   ("environ", Posting.int 1),
   ("equal", Posting.int 2),
   ("equat", Posting.int 2),
   ("equival", Posting.list [1, 2]),
   ("err", Posting.int 2),
   ("error", Posting.int 2),
   ("estim", Posting.int 2),
   ("eul", Posting.int 1),
   ("evalu", Posting.int 2),
   ("everi", Posting.int 1),
   ("exampl", Posting.list [1, 2]),
   ("exceed", Posting.int 2),
   ("except", Posting.list [1, 2]),
   ("exist", Posting.int 1),
   ("explicit", Posting.int 2),
   ("explicitli", Posting.int 2),
   ("exponenti", Posting.int 1),
   ("express", Posting.list [1, 2]),
   ("extend", Posting.int 1),
   ("extra", Posting.int 1),
   ("extract", Posting.int 1),
   ("eye", Posting.int 2),
   ("fail", Posting.int 2),
   ("fals", Posting.int 2),
   ("familiar", Posting.int 1),
   ("faster", Posting.int 2),
   ("feasibl", Posting.int 2),
   ("featherston", Posting.int 2),
   ("fewer", Posting.int 2),
   ("fext", Posting.int 2),
   ("figur", Posting.int 1),
   ("first", Posting.list [1, 2]),
   ("fkine", Posting.int 2),
   ("flip", Posting.int 2),
   ("forc", Posting.int 2),
   ("form", Posting.list [1, 2]),
   ("format", Posting.int 2),
   ("formula", Posting.int 2),
   ("forward", Posting.int 2),
   ("found", Posting.int 2),
   ("four", Posting.int 1),
   ("frame", Posting.list [1, 2]),
   ("free", Posting.int 2),
   ("freedom", Posting.int 2),
   ("frequent", Posting.int 1),
   ("friction", Posting.int 2),
   ("from", Posting.list [1, 2]),
   ("gain", Posting.int 2),
   ("gear", Posting.int 2),
   ("gearbox", Posting.int 2),
   ("gener", Posting.int 2),
   ("generalis", Posting.int 2),
   ("give", Posting.int 1),
   ("given", Posting.list [1, 2]),
   ("gnarli", Posting.int 1),
   ("grav", Posting.int 2),
   ("gravit", Posting.int 2),
   ("graviti", Posting.int 2),
   ("gravjac", Posting.int 2),
   ("gravload", Posting.int 2),
   ("green", Posting.int 1),
   ("grid", Posting.int 1),
   ("group", Posting.int 1),
   ("guarante", Posting.int 1),
   ("guess", Posting.int 2),
   ("hamilton", Posting.int 1),
   ("happen", Posting.int 2),
   ("hartenberg", Posting.int 2),
   ("has", Posting.list [1, 2]),
   ("have", Posting.list [1, 2]),
   ("haviland", Posting.int 2),
   ("here", Posting.int 1),
   ("high", Posting.int 0),
   ("highli", Posting.int 2),
   ("hold", Posting.list [1, 2]),
   ("homogen", Posting.list [1, 2]),
   ("homogenen", Posting.int 2),
   ("howev", Posting.int 1),
   ("hutchinson", Posting.int 2),
   ("ident", Posting.int 1),
   ("identifi", Posting.int 2),
   ("ignor", Posting.int 2),
   ("ikcon", Posting.int 2),
   ("ikin", Posting.int 2),
   ("ikine3", Posting.int 2),
   ("ikine6", Posting.int 2),
   ("ikine_sym", Posting.int 2),
   ("ikinem", Posting.int 2),
   ("ikunc", Posting.int 2),
   ("ilimit", Posting.int 2),
   ("implement", Posting.int 2),
   ("impos", Posting.int 2),
   ("includ", Posting.list [1, 2]),
   ("incorpor", Posting.int 2),
   ("index", Posting.int 1),
   ("indic", Posting.int 2),
   ("industri", Posting.int 2),
   ("inerti", Posting.int 2),
   ("inertia", Posting.int 2),
   ("inform", Posting.list [1, 2]),
   ("inherit", Posting.int 1),
   ("initi", Posting.int 2),
   ("initialis", Posting.int 2),
   ("input", Posting.list [1, 2]),
   ("insert", Posting.int 1),
   ("instal", Posting.int 1),
   ("instanc", Posting.int 1),
   ("instead", Posting.int 2),
   ("integr", Posting.int 2),
   ("intend", Posting.int 2),
   ("intern", Posting.int 2),
   ("interpret", Posting.int 2),
   ("intersect", Posting.int 2),
   ("introduct", Posting.int 0),
   ("inv", Posting.list [1, 2]),
   ("invers", Posting.list [1, 2]),
   ("invoc", Posting.int 2),
   ("invok", Posting.int 1),
   ("involv", Posting.int 2),
   ("islimit", Posting.int 2),
   ("isprismat", Posting.int 2),
   ("isrevolut", Posting.int 2),
   ("isspher", Posting.int 2),
   ("item", Posting.int 1),
   ("iter", Posting.list [1, 2]),
   ("itorqu", Posting.int 2),
   ("jacob0", Posting.int 2),
   ("jacob0v", Posting.int 2),
   ("jacob", Posting.int 2),
   ("jacobev", Posting.int 2),
   ("jacobian", Posting.int 2),
   ("jess", Posting.int 2),
   ("joint", Posting.int 2),
   ("jointdynam", Posting.int 2),
   ("jointlimit", Posting.int 2),
   ("journa", Posting.int 2),
   ("journal", Posting.int 2),
   ("just", Posting.int 1),
   ("keep", Posting.int 1),
   ("keyword", Posting.int 1),
   ("kind", Posting.int 2),
   ("kinemat", Posting.int 2),
   ("known", Posting.int 2),
   ("kr5", Posting.int 2),
   ("kuka", Posting.int 2),
   ("lambda", Posting.int 2),
   ("larg", Posting.int 2),
   ("last", Posting.list [1, 2]),
   ("latter", Posting.int 1),
   ("left", Posting.list [1, 2]),
   ("lefti", Posting.int 2),
   ("len", Posting.int 1),
   ("length", Posting.list [1, 2]),
   ("less", Posting.int 2),
   ("let", Posting.int 1),
   ("level", Posting.int 0),
   ("levenberg", Posting.int 2),
   ("like", Posting.list [1, 2]),
   ("limit", Posting.int 2),
   ("line", Posting.list [1, 2]),
   ("linear", Posting.int 2),
   ("link", Posting.int 0),
   ("list", Posting.int 2),
   ("lmfsolv", Posting.int 2),
   ("load", Posting.int 2),
   ("locaat", Posting.int 2),
   ("local", Posting.int 2),
   ("locat", Posting.int 2),
   ("low", Posting.int 0),
   ("mai", Posting.int 1),
   ("mani", Posting.int 2),
   ("manipul", Posting.list [1, 2]),
   ("manuf", Posting.int 2),
   ("manufactur", Posting.int 2),
   ("map", Posting.list [1, 2]),
   ("marquadt", Posting.int 2),
   ("mask", Posting.int 2),
   ("mass", Posting.int 2),
   ("math", Posting.int 0),
   ("mathbb", Posting.int 1),
   ("mathemat", Posting.int 1),
   ("matplotlib", Posting.int 1),
   ("matric", Posting.list [1, 2]),
   ("matrix", Posting.list [1, 2]),
   ("max", Posting.int 2),
   ("maximum", Posting.int 2),
   ("mdh", Posting.int 2),
   ("mean", Posting.list [1, 2]),
   ("measur", Posting.int 2),
   ("mechan", Posting.int 2),
   ("memori", Posting.int 2),
   ("merit", Posting.int 1),
   ("method", Posting.list [1, 2]),
   ("might", Posting.int 2),
   ("min", Posting.int 2),
   ("minim", Posting.list [1, 2]),
   ("minimis", Posting.int 2),
   ("minimum", Posting.int 2),
   ("mix", Posting.int 1),
   ("mixtur", Posting.int 1),
   ("model", Posting.int 2),
   ("modifi", Posting.int 2),
   ("modul", Posting.int 1),
   ("more", Posting.int 2),
   ("most", Posting.list [1, 2]),
   ("motor", Posting.int 2),
   ("move", Posting.list [1, 2]),
   ("much", Posting.list [1, 2]),
   ("multi", Posting.list [1, 2]),
   ("multipl", Posting.list [1, 2]),
   ("multipli", Posting.int 1),
   ("must", Posting.int 2),
   ("name", Posting.list [1, 2]),
   ("namespa", Posting.int 1),
   ("ndarrai", Posting.list [1, 2]),
   ("ndash", Posting.int 1),
   ("need", Posting.int 1),
   ("neg", Posting.int 2),
   ("nfrobot", Posting.int 2),
   ("nofrict", Posting.int 2),
   ("nolm", Posting.int 2),
   ("non", Posting.int 2),
   ("nonam", Posting.int 2),
   ("none", Posting.int 2),
   ("nonlinear", Posting.int 2),
   ("norm", Posting.list [1, 2]),
   ("notat", Posting.int 1),
   ("note", Posting.list [1, 2]),
   ("now", Posting.int 1),
   ("number", Posting.list [1, 2]),
   ("numer", Posting.list [1, 2]),
   ("numpi", Posting.list [1, 2]),
   ("nxk", Posting.int 2),
   ("nxm", Posting.list [1, 2]),
   ("nxn", Posting.int 2),
   ("nxnxk", Posting.int 2),
   ("obei", Posting.int 1),
   ("object", Posting.int 2),
   ("obtain", Posting.int 2),
   ("off", Posting.int 2),
   ("offset", Posting.int 2),
   ("often", Posting.list [1, 2]),
   ("omega", Posting.int 2),
   ("one", Posting.list [1, 2]),
   ("onli", Posting.list [1, 2]),
   ("onlin", Posting.int 1),
   ("oper", Posting.int 2),
   ("operand", Posting.int 1),
   ("opposit", Posting.int 2),
   ("optim", Posting.int 2),
   ("optimis", Posting.int 2),
   ("option", Posting.list [1, 2]),
   ("order", Posting.int 1),
   ("orient", Posting.list [1, 2]),
   ("orin", Posting.int 2),
   ("orthogon", Posting.int 1),
   ("other", Posting.list [1, 2]),
   ("otherwis", Posting.list [1, 2]),
   ("output", Posting.list [1, 2]),
   ("over", Posting.list [1, 2]),
   ("overwrit", Posting.int 2),
   ("packag", Posting.int 1),
   ("pai", Posting.int 2),
   ("paramet", Posting.int 2),
   ("parent", Posting.int 1),
   ("particular", Posting.int 1),
   ("particularli", Posting.int 1),
   ("pass", Posting.list [1, 2]),
   ("paul", Posting.int 2),
   ("payload", Posting.int 2),
   ("peform", Posting.int 2),
   ("per", Posting.int 2),
   ("perform", Posting.int 1),
   ("plane", Posting.int 2),
   ("plot", Posting.int 1),
   ("plt", Posting.int 1),
   ("point", Posting.list [1, 2]),
   ("polymorph", Posting.int 1),
   ("poor", Posting.int 2),
   ("pop", Posting.int 1),
   ("pose", Posting.int 2),
   ("posese3", Posting.int 1),
   ("posit", Posting.list [1, 2]),
   ("possibl", Posting.int 1),
   ("power", Posting.int 1),
   ("present", Posting.int 2),
   ("previou", Posting.int 2),
   ("print", Posting.int 1),
   ("prismat", Posting.int 0),
   ("product", Posting.list [1, 2]),
   ("properti", Posting.list [1, 2]),
   ("proport", Posting.int 2),
   ("prototyp", Posting.int 2),
   ("provdid", Posting.int 1),
   ("provid", Posting.int 1),
   ("puma560", Posting.int 2),
   ("puma", Posting.int 2),
   ("pweight", Posting.int 2),
   ("python", Posting.int 1),
   ("qdd", Posting.int 2),
   ("qdeg", Posting.int 2),
   ("qlim", Posting.int 2),
   ("qlimit", Posting.int 2),
   ("qnorm", Posting.int 1),
   ("qprint", Posting.int 1),
   ("qqmul", Posting.int 1),
   ("qrad", Posting.int 2),
   ("quat", Posting.int 1),
   ("quick", Posting.int 1),
   ("radian", Posting.int 2),
   ("rais", Posting.int 1),
   ("rather", Posting.int 2),
   ("ratio", Posting.int 2),
   ("reach", Posting.int 2),
   ("read", Posting.int 1),
   ("recent", Posting.int 1),
   ("red", Posting.int 1),
   ("refer", Posting.int 2),
   ("reflect", Posting.int 2),
   ("regular", Posting.int 1),
   ("reject", Posting.int 2),
   ("rel", Posting.int 1),
   ("relat", Posting.list [1, 2]),
   ("relev", Posting.int 1),
   ("remov", Posting.list [1, 2]),
   ("repeat", Posting.int 1),
   ("replac", Posting.int 1),
   ("replic", Posting.int 1),
   ("repres", Posting.list [1, 2]),
   ("represent", Posting.list [1, 2]),
   ("requir", Posting.list [1, 2]),
   ("research", Posting.int 2),
   ("respect", Posting.int 2),
   ("result", Posting.list [1, 2]),
   ("retrun", Posting.int 2),
   ("revolut", Posting.int 0),
   ("right", Posting.list [1, 2]),
   ("righti", Posting.int 2),
   ("rigid", Posting.int 2),
   ("ring", Posting.int 1),
   ("rlimit", Posting.int 2),
   ("rne", Posting.int 2),
   ("robot", Posting.list [1, 2]),
   ("ropi", Posting.int 2),
   ("rotat", Posting.list [1, 2]),
   ("roti", Posting.int 1),
   ("rotx", Posting.int 1),
   ("row", Posting.list [1, 2]),
   ("rpy2r", Posting.int 1),
   ("rtbpose", Posting.int 1),
   ("rtype", Posting.int 2),
   ("rule", Posting.int 1),
   ("rviz", Posting.int 1),
   ("safeti", Posting.int 1),
   ("same", Posting.list [1, 2]),
   ("scalar", Posting.list [1, 2]),
   ("scalarto", Posting.int 1),
   ("scale", Posting.int 2),
   ("se2", Posting.int 1),
   ("se3", Posting.list [1, 2]),
   ("search", Posting.int 2),
   ("section", Posting.list [1, 2]),
   ("see", Posting.int 1),
   ("seen", Posting.int 2),
   ("semant", Posting.int 1),
   ("separ", Posting.list [1, 2]),
   ("sequenc", Posting.list [1, 2]),
   ("seri", Posting.int 2),
   ("serial", Posting.int 2),
   ("seriallink", Posting.int 0),
   ("set", Posting.list [1, 2]),
   ("sever", Posting.int 1),
   ("shape", Posting.int 1),
   ("should", Posting.int 2),
   ("shoulder", Posting.int 2),
   ("show", Posting.list [1, 2]),
   ("shown", Posting.list [1, 2]),
   ("sigma", Posting.int 2),
   ("sign", Posting.int 2),
   ("similar", Posting.int 1),
   ("similarli", Posting.int 1),
   ("simpl", Posting.int 1),
   ("simul", Posting.int 2),
   ("sin", Posting.int 1),
   ("sinc", Posting.int 2),
   ("singl", Posting.int 1),
   ("singular", Posting.int 2),
   ("six", Posting.int 2),
   ("size", Posting.int 2),
   ("slam", Posting.int 1),
   ("slice", Posting.int 1),
   ("slimit", Posting.int 2),
   ("slow", Posting.int 2),
   ("smooth", Posting.int 2),
   ("so2", Posting.int 1),
   ("so3", Posting.int 1),
   ("solut", Posting.int 2),
   ("solv", Posting.int 2),
   ("solver", Posting.int 2),
   ("some", Posting.list [1, 2]),
   ("somewhat", Posting.int 1),
   ("sourc", Posting.int 2),
   ("space", Posting.list [1, 2]),
   ("span", Posting.int 2),
   ("spatial", Posting.list [0, 2]),
   ("spatialmath", Posting.int 1),
   ("specif", Posting.int 2),
   ("specifi", Posting.int 2),
   ("spheric", Posting.int 2),
   ("spong", Posting.int 2),
   ("springer", Posting.int 2),
   ("standard", Posting.list [1, 2]),
   ("stanford", Posting.int 2),
   ("state", Posting.int 2),
   ("step", Posting.int 2),
   ("stiff", Posting.int 2),
   ("stop", Posting.int 1),
   ("store", Posting.int 2),
   ("string", Posting.list [1, 2]),
   ("style", Posting.int 1),
   ("subclass", Posting.list [1, 2]),
   ("subtract", Posting.int 1),
   ("success", Posting.int 2),
   ("sum", Posting.int 1),
   ("summer", Posting.int 2),
   ("sumsqr", Posting.int 2),
   ("superclass", Posting.int 2),
   ("suppli", Posting.int 2),
   ("support", Posting.int 2),
   ("sym", Posting.int 1),
   ("symbol", Posting.int 2),
   ("symmetr", Posting.int 2),
   ("sympi", Posting.int 1),
   ("system", Posting.int 2),
   ("tai", Posting.int 2),
   ("taken", Posting.list [1, 2]),
   ("tall", Posting.int 2),
   ("tau", Posting.int 2),
   ("taub", Posting.int 2),
   ("taug", Posting.int 2),
   ("taui", Posting.int 2),
   ("tb_optpars", Posting.int 1),
   ("tension", Posting.int 1),
   ("term", Posting.int 2),
   ("test", Posting.int 2),
   ("than", Posting.int 2),
   ("thei", Posting.int 1),
   ("them", Posting.int 1),
   ("theta", Posting.list [1, 2]),
   ("thi", Posting.list [1, 2]),
   ("thing", Posting.int 1),
   ("third", Posting.list [1, 2]),
   ("those", Posting.int 2),
   ("though", Posting.int 2),
   ("three", Posting.int 2),
   ("through", Posting.int 2),
   ("time", Posting.list [1, 2]),
   ("tjhe", Posting.int 1),
   ("todegre", Posting.int 2),
   ("tol", Posting.int 2),
   ("toler", Posting.int 2),
   ("tool", Posting.int 2),
   ("toolbox", Posting.int 1),
   ("toradian", Posting.int 2),
   ("torqu", Posting.int 2),
   ("traceback", Posting.int 1),
   ("trajecotri", Posting.int 2),
   ("trajectori", Posting.list [1, 2]),
   ("transfer", Posting.int 2),
   ("transform", Posting.list [1, 2]),
   ("transl2", Posting.int 1),
   ("transl", Posting.int 1),
   ("translat", Posting.int 2),
   ("transmiss", Posting.int 2),
   ("transpos", Posting.int 2),
   ("trap", Posting.int 2),
   ("treat", Posting.int 2),
   ("tricki", Posting.int 2),
   ("trot2", Posting.int 1),
   ("trotx", Posting.int 1),
   ("trplot2", Posting.int 1),
   ("trplot", Posting.int 1),
   ("tupl", Posting.list [1, 2]),
   ("ture", Posting.int 2),
   ("twist", Posting.int 2),
   ("two", Posting.int 1),
   ("twolink", Posting.int 2),
   ("type", Posting.list [1, 2]),
   ("typeerror", Posting.int 1),
   ("typic", Posting.int 1),
   ("unchang", Posting.int 2),
   ("under", Posting.int 2),
   ("underactu", Posting.int 2),
   ("underpin", Posting.int 1),
   ("unimport", Posting.int 2),
   ("uniqu", Posting.int 2),
   ("unitquaternion", Posting.int 1),
   ("upsid", Posting.int 1),
   ("use", Posting.list [1, 2]),
   ("used", Posting.list [1, 2]),
   ("useful", Posting.int 2),
   ("userlist", Posting.int 1),
   ("uses", Posting.int 2),
   ("using", Posting.list [1, 2]),
   ("valid", Posting.int 1),
   ("valu", Posting.list [1, 2]),
   ("valueerror", Posting.int 1),
   ("variabl", Posting.list [1, 2]),
   ("varieti", Posting.int 1),
   ("variou", Posting.int 2),
   ("vector", Posting.int 2),
   ("veloc", Posting.int 2),
   ("veri", Posting.int 2),
   ("vialat", Posting.int 2),
   ("vidyasagar", Posting.int 2),
   ("viscou", Posting.int 2),
   ("vision", Posting.list [1, 2]),
   ("vol", Posting.int 2),
   ("wai", Posting.int 1),
   ("walker", Posting.int 2),
   ("weight", Posting.int 2),
   ("well", Posting.int 1),
   ("went", Posting.int 2),
   ("what", Posting.list [1, 2]),
   ("when", Posting.list [1, 2]),
   ("where", Posting.list [1, 2]),
   ("which", Posting.list [1, 2]),
   ("width", Posting.int 1),
   ("wilei", Posting.int 2),
   ("wise", Posting.int 1),
   ("wish", Posting.int 1),
   ("within", Posting.int 2),
   ("without", Posting.int 2),
   ("work", Posting.list [1, 2]),
   ("workspac", Posting.int 1),
   ("world", Posting.list [1, 2]),
   ("would", Posting.int 1),
   ("wrench", Posting.int 2),
   ("wrist", Posting.int 2),
   ("wrist_flip", Posting.int 2),
   ("write", Posting.int 1),
   ("wrong", Posting.int 2),
   ("yet", Posting.list [1, 2]),
   ("ymin", Posting.int 2),
   ("you", Posting.int 1),
   ("zero", Posting.list [1, 2]),
   ("zhang", Posting.int 2),
   ("zip", Posting.int 1)]

def titleterms : List (String × Posting) :=
  [("class", Posting.list [1, 2]),
   ("function", Posting.int 2),
   ("capabl", Posting.int 1),
   ("compat", Posting.int 1),
   ("graphic", Posting.int 1),
   ("high", Posting.int 1),
   ("introduct", Posting.int 1),
   ("level", Posting.int 1),
   ("link", Posting.int 2),
   ("list", Posting.int 1),
   ("low", Posting.int 1),
   ("math", Posting.int 1),
   ("matlab", Posting.int 1),
   ("object", Posting.int 1),
   ("oper", Posting.int 1),
   ("pose", Posting.int 1),
   ("prismat", Posting.int 2),
   ("python", Posting.int 0),
   ("quaternion", Posting.int 1),
   ("revolut", Posting.int 2),
   ("robot", Posting.int 0),
   ("seriallink", Posting.int 2),
   ("spatial", Posting.int 1),
   ("support", Posting.int 1),
   ("symbol", Posting.int 1),
   ("toolbox", Posting.int 0),
   ("unit", Posting.int 1),
   ("vector", Posting.int 1)]

def titles : List String :=
  ["Robotics Toolbox for Python", "Introduction", "Classes and functions"]

/-- The document identifiers contained in one posting, as a list. -/
def postingIds : Posting → List Nat
  | .int i => [i]
  | .list l => l

/-- Modelled from the spec: the read-only lookup operation of the consuming
search widget, which is not part of this repository. "given a search term,
return the set of documents/objects whose indexed terms match", with
"term not found → empty result". On an exact-match lookup this returns the
document identifiers stored under the first entry whose key equals the
search term, and the empty list when no key matches. -/
def lookupTerm (ts : List (String × Posting)) (t : String) : List Nat :=
  match ts.find? (fun p => p.1 == t) with
  | some p => postingIds p.2
  | none => []

/-- The whole object passed to `Search.setIndex` in `src/searchindex.js`,
one field per key of the literal. -/
structure SearchIndex where
  docnames : List String
  envversion : List (String × Nat)
  filenames : List String
  objects : List (String × List (String × ObjEntry))
  objnames : List (Nat × (String × String × String))
  objtypes : List (Nat × String)
  terms : List (String × Posting)
  titles : List String
  titleterms : List (String × Posting)
deriving DecidableEq

/-- The concrete index of `src/searchindex.js`. -/
def searchIndex : SearchIndex :=
  { docnames := docnames
    envversion := envversion
    filenames := filenames
    objects := objects
    objnames := objnames
    objtypes := objtypes
    terms := terms
    titles := titles
    titleterms := titleterms }

/-- Modelled from the spec: query-time lookup as an explicit state-passing
operation, returning the (unchanged) index together with the result, so that
the read-only nature of querying can be stated as a frame property. -/
def lookupS (idx : SearchIndex) (t : String) : SearchIndex × List Nat :=
  (idx, lookupTerm idx.terms t)

/-- The keys of the `terms` mapping, in the order they appear in the literal. -/
def termsKeys : List String := terms.map Prod.fst

/-- Strict lexicographic comparison of character lists by code point. -/
def charsLtB : List Char → List Char → Bool
  | [], [] => false
  | [], _ :: _ => true
  | _ :: _, [] => false
  | a :: as, b :: bs => decide (a.toNat < b.toNat) || (a.toNat == b.toNat && charsLtB as bs)

/-- Strict lexicographic comparison of strings by code point. -/
def strLtB (a b : String) : Bool := charsLtB a.data b.data

/-- Fuel-bounded merge of two lists of strings by `strLtB`; with fuel exhausted
it degenerates to concatenation, so it is a permutation of its inputs for any
fuel. -/
def mergeFuel : Nat → List String → List String → List String
  | 0, as, bs => as ++ bs
  | _ + 1, [], bs => bs
  | _ + 1, a :: as, [] => a :: as
  | f + 1, a :: as, b :: bs =>
    if strLtB a b then a :: mergeFuel f as (b :: bs) else b :: mergeFuel f (a :: as) bs

/-- Fuel-bounded merge sort of a list of strings by `strLtB`. -/
def msortFuel : Nat → List String → List String
  | 0, l => l
  | f + 1, l =>
    if l.length ≤ 1 then l
    else mergeFuel 1600 (msortFuel f (l.take (l.length / 2))) (msortFuel f (l.drop (l.length / 2)))

/-- `chainStrB p l` checks that the strings `p :: l` are strictly increasing
step by step. -/
def chainStrB : String → List String → Bool
  | _, [] => true
  | p, b :: rest => strLtB p b && chainStrB b rest

/-- Checks that a list of strings is strictly increasing. -/
def sortedStrB : List String → Bool
  | [] => true
  | a :: rest => chainStrB a rest

/-- Recogniser for a posting that is a one-element JavaScript array. -/
def oneElementList : Posting → Bool
  | .list [_] => true
  | _ => false

/-- `chainLt p l` checks that `p :: l` is strictly increasing step by step. -/
def chainLt : Nat → List Nat → Bool
  | _, [] => true
  | p, b :: rest => decide (p < b) && chainLt b rest

/-- Checks that a list of naturals is strictly increasing. -/
def strictSortedNat : List Nat → Bool
  | [] => true
  | a :: rest => chainLt a rest

/-- If a string is not among the keys of an association list, `find?` on the
key-equality predicate returns `none`. -/
theorem find?_eq_none_of_not_mem_keys (ts : List (String × Posting)) (t : String)
    (h : t ∉ ts.map Prod.fst) : ts.find? (fun p => p.1 == t) = none := by
  rw [List.find?_eq_none]
  intro x hx hbe
  exact h (List.mem_map.mpr ⟨x, hx, by simpa using hbe⟩)

/-- On an association list with duplicate-free keys, `lookupTerm` at a key
present in the list returns exactly the posting stored under that key. -/
theorem lookupTerm_eq_of_nodup (ts : List (String × Posting))
    (hnd : (ts.map Prod.fst).Nodup) (t : String) (p : Posting)
    (hmem : (t, p) ∈ ts) : lookupTerm ts t = postingIds p := by
  induction ts with
  | nil => cases hmem
  | cons a rest ih =>
    rw [List.map_cons, List.nodup_cons] at hnd
    rcases List.mem_cons.mp hmem with h | h
    · subst h
      unfold lookupTerm
      rw [List.find?_cons_of_pos _ (by simp)]
    · have hne : a.1 ≠ t := by
        intro he
        exact hnd.1 (he ▸ List.mem_map.mpr ⟨(t, p), h, rfl⟩)
      unfold lookupTerm
      rw [List.find?_cons_of_neg _ (by simpa using hne)]
      exact ih hnd.2 h

/-- `charsLtB` is irreflexive. -/
theorem charsLtB_irrefl : ∀ l : List Char, charsLtB l l = false := by
  intro l
  induction l with
  | nil => rfl
  | cons a as ih =>
    simp only [charsLtB, ih, Bool.and_false, Bool.or_false, decide_eq_false_iff_not]
    exact Nat.lt_irrefl _

/-- `charsLtB` is transitive. -/
theorem charsLtB_trans : ∀ as bs cs : List Char,
    charsLtB as bs = true → charsLtB bs cs = true → charsLtB as cs = true := by
  intro as
  induction as with
  | nil =>
    intro bs cs h1 h2
    cases bs with
    | nil => cases h1
    | cons b bs' =>
      cases cs with
      | nil => cases h2
      | cons c cs' => rfl
  | cons a as' ih =>
    intro bs cs h1 h2
    cases bs with
    | nil => cases h1
    | cons b bs' =>
      cases cs with
      | nil => cases h2
      | cons c cs' =>
        simp only [charsLtB, Bool.or_eq_true, Bool.and_eq_true, decide_eq_true_eq,
          beq_iff_eq] at h1 h2 ⊢
        rcases h1 with hlt1 | ⟨heq1, hrec1⟩
        · rcases h2 with hlt2 | ⟨heq2, hrec2⟩
          · exact Or.inl (by omega)
          · exact Or.inl (by omega)
        · rcases h2 with hlt2 | ⟨heq2, hrec2⟩
          · exact Or.inl (by omega)
          · exact Or.inr ⟨by omega, ih bs' cs' hrec1 hrec2⟩

/-- Strings related by `strLtB` are distinct. -/
theorem strLtB_ne {a b : String} (h : strLtB a b = true) : a ≠ b := by
  intro he
  subst he
  rw [strLtB, charsLtB_irrefl] at h
  cases h

/-- `strLtB` is transitive. -/
theorem strLtB_trans {a b c : String} (h1 : strLtB a b = true) (h2 : strLtB b c = true) :
    strLtB a c = true :=
  charsLtB_trans _ _ _ h1 h2

/-- A transitive step relation chained from `a` along `l` is pairwise on `a :: l`. -/
theorem pairwise_of_chain {α : Type} {r : α → α → Prop}
    (tr : ∀ x y z : α, r x y → r y z → r x z) :
    ∀ (l : List α) (a : α), List.Chain r a l → (a :: l).Pairwise r := by
  intro l
  induction l with
  | nil => intro a _; exact List.pairwise_singleton r a
  | cons b t ih =>
    intro a h
    cases h with
    | cons hab hbt =>
      have hp := ih b hbt
      refine List.Pairwise.cons ?_ hp
      intro x hx
      rcases List.mem_cons.mp hx with he | ht
      · exact he ▸ hab
      · cases hp with
        | cons hbt' _ => exact tr a b x hab (hbt' x ht)

/-- `mergeFuel` returns a permutation of the concatenation of its inputs. -/
theorem mergeFuel_perm : ∀ (f : Nat) (as bs : List String),
    List.Perm (mergeFuel f as bs) (as ++ bs) := by
  intro f
  induction f with
  | zero => intro as bs; exact List.Perm.refl _
  | succ f ih =>
    intro as bs
    cases as with
    | nil => exact (List.Perm.refl bs).symm.trans (List.Perm.refl _)
    | cons a as' =>
      cases bs with
      | nil => simp [mergeFuel]
      | cons b bs' =>
        rw [mergeFuel]
        by_cases hab : strLtB a b = true
        · rw [if_pos hab]
          exact (ih as' (b :: bs')).cons a
        · rw [if_neg hab]
          exact ((ih (a :: as') bs').cons b).trans List.perm_middle.symm

/-- `msortFuel` returns a permutation of its input. -/
theorem msortFuel_perm : ∀ (f : Nat) (l : List String), List.Perm (msortFuel f l) l := by
  intro f
  induction f with
  | zero => intro l; exact List.Perm.refl _
  | succ f ih =>
    intro l
    rw [msortFuel]
    by_cases h : l.length ≤ 1
    · rw [if_pos h]
    · rw [if_neg h]
      refine (mergeFuel_perm 1600 _ _).trans ?_
      refine ((ih _).append (ih _)).trans ?_
      rw [List.take_append_drop]

/-- A successful `chainStrB` run yields a `List.Chain` of strict increase. -/
theorem chain_of_chainStrB : ∀ (l : List String) (p : String), chainStrB p l = true →
    List.Chain (fun a b => strLtB a b = true) p l := by
  intro l
  induction l with
  | nil => intro p _; exact List.Chain.nil
  | cons b rest ih =>
    intro p h
    simp only [chainStrB, Bool.and_eq_true] at h
    exact List.Chain.cons h.1 (ih b h.2)

/-- A strictly increasing list of strings is duplicate-free. -/
theorem nodup_of_sortedStrB (l : List String) (h : sortedStrB l = true) : l.Nodup := by
  cases l with
  | nil => exact List.nodup_nil
  | cons a rest =>
    have hp := pairwise_of_chain (r := fun a b : String => strLtB a b = true)
      (fun _ _ _ h1 h2 => strLtB_trans h1 h2) rest a (chain_of_chainStrB rest a h)
    exact hp.imp (fun h => strLtB_ne h)

/-- A list of strings whose `msortFuel` image is strictly increasing is
duplicate-free. -/
theorem nodup_of_msort_sorted (l : List String) (f : Nat)
    (h : sortedStrB (msortFuel f l) = true) : l.Nodup :=
  ((msortFuel_perm f l).nodup_iff).mp (nodup_of_sortedStrB _ h)

set_option maxRecDepth 8000 in
/-- The keys of the `terms` mapping are pairwise distinct. -/
theorem terms_keys_nodup : termsKeys.Nodup :=
  nodup_of_msort_sorted termsKeys 20 (by rfl)

/-- A string none of the keys of an association list equals is not a key. -/
theorem not_mem_keys_of_all_ne (ts : List (String × Posting)) (t : String)
    (h : ts.all (fun y => decide (y.1 ≠ t)) = true) : t ∉ ts.map Prod.fst := by
  intro hmem
  rcases List.mem_map.mp hmem with ⟨y, hy, he⟩
  exact (of_decide_eq_true (List.all_eq_true.mp h y hy)) he

set_option maxRecDepth 8000 in
set_option maxHeartbeats 1000000 in
/-- Claim C1: every document identifier appearing in a posting of the `terms`
mapping, whether stored as a bare integer or as a member of a list, is a valid
index into the `docnames` table. -/
theorem claim_C1 : ∀ x ∈ terms, ∀ i ∈ postingIds x.2, i < docnames.length := by
  have H : terms.all (fun x => (postingIds x.2).all (fun i => decide (i < docnames.length))) =
      true := by rfl
  intro x hx i hi
  exact of_decide_eq_true (List.all_eq_true.mp (List.all_eq_true.mp H x hx) i hi)

/-- Witness for claim C1 at the entry for the term `4x4` and identifier 2. -/
theorem claim_C1_witness : 2 < docnames.length :=
  claim_C1 ("4x4", Posting.list [1, 2]) (by decide) 2 (by decide)

set_option maxRecDepth 8000 in
/-- Claim C2: looking up any term that is a key of the `terms` mapping returns
a non-empty result, and looking up any string that is not a key returns the
empty result. -/
theorem claim_C2 :
    (∀ x ∈ terms, lookupTerm terms x.1 ≠ []) ∧
    (∀ t : String, t ∉ terms.map Prod.fst → lookupTerm terms t = []) := by
  have hne : terms.all (fun y => decide (postingIds y.2 ≠ [])) = true := by rfl
  constructor
  · intro x hx
    rw [lookupTerm_eq_of_nodup terms terms_keys_nodup x.1 x.2 hx]
    exact of_decide_eq_true (List.all_eq_true.mp hne x hx)
  · intro t ht
    unfold lookupTerm
    rw [find?_eq_none_of_not_mem_keys terms t ht]

set_option maxRecDepth 8000 in
/-- Witness for claim C2 at the present term `4x4` and the absent term `zzz`. -/
theorem claim_C2_witness : lookupTerm terms "4x4" ≠ [] ∧ lookupTerm terms "zzz" = [] :=
  ⟨claim_C2.1 ("4x4", Posting.list [1, 2]) (by decide),
   claim_C2.2 "zzz" (not_mem_keys_of_all_ne terms "zzz" (by rfl))⟩

/-- Claim C3: lookup of any term that is a key of the `terms` mapping returns
exactly the document identifiers of the posting stored under that term, with
no transformation applied. -/
theorem claim_C3 : ∀ x ∈ terms, lookupTerm terms x.1 = postingIds x.2 := by
  intro x hx
  exact lookupTerm_eq_of_nodup terms terms_keys_nodup x.1 x.2 hx

/-- Witness for claim C3 at the entry for the term `4x4`. -/
theorem claim_C3_witness : lookupTerm terms "4x4" = postingIds (Posting.list [1, 2]) :=
  claim_C3 ("4x4", Posting.list [1, 2]) (by decide)

/-- Claim C4: the `docnames` table contains no duplicate names, and for every
valid identifier `i`, mapping `docnames[i]` back to its position yields `i`. -/
theorem claim_C4 :
    docnames.Nodup ∧
    ∀ i : Nat, (h : i < docnames.length) → docnames.indexOf (docnames.get ⟨i, h⟩) = i := by
  exact ⟨by decide, by decide⟩

/-- Witness for claim C4 at identifier 0. -/
theorem claim_C4_witness :
    docnames.indexOf (docnames.get ⟨0, (by decide : 0 < docnames.length)⟩) = 0 :=
  claim_C4.2 0 (by decide)

set_option maxRecDepth 8000 in
/-- Claim C5: every entry of the `objects` mapping carries a kind identifier
that is a key of both the `objtypes` and `objnames` tables and an owning
document identifier that is a valid index into `docnames`. -/
theorem claim_C5 : ∀ g ∈ objects, ∀ e ∈ g.2,
    e.2.kind ∈ objtypes.map Prod.fst ∧
    e.2.kind ∈ objnames.map Prod.fst ∧
    e.2.doc < docnames.length := by decide

/-- Witness for claim C5 at the class entry `ropy.robot.Link.Link`. -/
theorem claim_C5_witness :
    1 ∈ objtypes.map Prod.fst ∧ 1 ∈ objnames.map Prod.fst ∧ 2 < docnames.length :=
  claim_C5 ("ropy.robot.Link", [("Link", ⟨2, 1, 1, ""⟩)]) (by decide)
    ("Link", ⟨2, 1, 1, ""⟩) (by decide)

/-- Claim C6: the lookup operation never mutates the index: after a lookup on
any search term, every field of the index state is unchanged. -/
theorem claim_C6 : ∀ (idx : SearchIndex) (t : String),
    (lookupS idx t).1 = idx ∧
    (lookupS idx t).1.docnames = idx.docnames ∧
    (lookupS idx t).1.filenames = idx.filenames ∧
    (lookupS idx t).1.titles = idx.titles ∧
    (lookupS idx t).1.terms = idx.terms ∧
    (lookupS idx t).1.objects = idx.objects ∧
    (lookupS idx t).1.objtypes = idx.objtypes ∧
    (lookupS idx t).1.objnames = idx.objnames ∧
    (lookupS idx t).1.envversion = idx.envversion := by
  intro idx t
  exact ⟨rfl, rfl, rfl, rfl, rfl, rfl, rfl, rfl, rfl⟩

set_option maxRecDepth 8000 in
/-- Claim C7: the empty string is not a key of `terms`; lookup of the empty
term returns either the empty result set or the full result set (here the
empty one), and lookup of any unknown term returns the empty result set. -/
theorem claim_C7 :
    ("" ∉ terms.map Prod.fst) ∧
    (lookupTerm terms "" = [] ∨ lookupTerm terms "" = List.range docnames.length) ∧
    (∀ t : String, t ∉ terms.map Prod.fst → lookupTerm terms t = []) := by
  refine ⟨not_mem_keys_of_all_ne terms "" (by rfl), Or.inl ?_, ?_⟩
  · unfold lookupTerm
    rw [find?_eq_none_of_not_mem_keys terms ""
      (not_mem_keys_of_all_ne terms "" (by rfl))]
  · intro t ht
    unfold lookupTerm
    rw [find?_eq_none_of_not_mem_keys terms t ht]

set_option maxRecDepth 8000 in
/-- Witness for claim C7 at the absent term `qqq`. -/
theorem claim_C7_witness : lookupTerm terms "qqq" = [] :=
  claim_C7.2.2 "qqq" (not_mem_keys_of_all_ne terms "qqq" (by rfl))

/-- A successful `chainLt` run yields a `List.Chain` of `<`. -/
theorem chain_of_chainLt : ∀ (l : List Nat) (p : Nat), chainLt p l = true →
    List.Chain (· < ·) p l := by
  intro l
  induction l with
  | nil => intro p _; exact List.Chain.nil
  | cons b rest ih =>
    intro p h
    simp only [chainLt, Bool.and_eq_true] at h
    exact List.Chain.cons (of_decide_eq_true h.1) (ih b h.2)

/-- A strictly increasing list of naturals is a chain, pairwise increasing and
duplicate-free. -/
theorem strictSortedNat_spec (l : List Nat) (hl : strictSortedNat l = true) :
    List.Chain' (· < ·) l ∧ l.Pairwise (· < ·) ∧ l.Nodup := by
  have hpair : l.Pairwise (· < ·) := by
    cases l with
    | nil => exact List.Pairwise.nil
    | cons a rest =>
      exact pairwise_of_chain (r := fun i j : Nat => i < j)
        (fun _ _ _ h1 h2 => Nat.lt_trans h1 h2) rest a (chain_of_chainLt rest a hl)
  have hchain : List.Chain' (· < ·) l := by
    cases l with
    | nil => trivial
    | cons a rest => exact chain_of_chainLt rest a hl
  exact ⟨hchain, hpair, hpair.imp (fun h => Nat.ne_of_lt h)⟩

set_option maxRecDepth 8000 in
/-- Claim C8: every posting of the `terms` mapping that is stored as a list is
sorted in strictly ascending order of document identifier and contains no
duplicates. -/
theorem claim_C8 : ∀ x ∈ terms, ∀ l : List Nat, x.2 = Posting.list l →
    List.Chain' (· < ·) l ∧ l.Pairwise (· < ·) ∧ l.Nodup := by
  have H : terms.all (fun x => strictSortedNat (postingIds x.2)) = true := by rfl
  intro x hx l he
  have h1 := List.all_eq_true.mp H x hx
  rw [he] at h1
  exact strictSortedNat_spec l h1

/-- Witness for claim C8 at the entry for the term `4x4`. -/
theorem claim_C8_witness :
    List.Chain' (· < ·) [1, 2] ∧ List.Pairwise (· < ·) [1, 2] ∧ List.Nodup [1, 2] :=
  claim_C8 ("4x4", Posting.list [1, 2]) (by decide) [1, 2] rfl

/-- Claim C9: the `docnames`, `filenames` and `titles` tables all have length
3, and each file name is the corresponding document name with the suffix
`.rst` appended. -/
theorem claim_C9 :
    docnames.length = 3 ∧ filenames.length = docnames.length ∧
    titles.length = docnames.length ∧
    filenames = docnames.map (fun d => d ++ ".rst") := by
  refine ⟨rfl, rfl, rfl, by decide⟩

set_option maxRecDepth 8000 in
/-- Claim C10: no posting of the `terms` mapping is a one-element list — a
term occurring in exactly one document is stored as a bare integer — and
postings of both shapes (bare integer, list) occur, so a consumer must accept
both. -/
theorem claim_C10 :
    (∀ x ∈ terms, oneElementList x.2 = false) ∧
    ("class", Posting.int 0) ∈ terms ∧
    ("4x4", Posting.list [1, 2]) ∈ terms := by
  have H : terms.all (fun x => !(oneElementList x.2)) = true := by rfl
  refine ⟨?_, by decide, by decide⟩
  intro x hx
  have h2 := List.all_eq_true.mp H x hx
  cases hone : oneElementList x.2
  · rfl
  · rw [hone] at h2
    cases h2

/-- Witness for claim C10 at the entry for the term `case`. -/
theorem claim_C10_witness : oneElementList (Posting.list [1, 2]) = false :=
  claim_C10.1 ("case", Posting.list [1, 2]) (by decide)

end Ropy
